import Mathlib

/-!
Verification model of the TF-IDF vector store implemented in
src/src/database/vector_store.py (class VectorStore).

Modelling conventions:
* Floating-point similarity scores are modelled as exact rationals.
* The fitted TfidfVectorizer is modelled by its observable behaviour: a
  transform function from query text to an optional weight vector, where
  none models a raised exception (e.g. the sklearn NotFittedError); pickle
  can load any fitted vectorizer, so the function is arbitrary.
* File-system effects are explicit: the three persisted artifacts form a
  Disk value, the glob result and the sklearn / write outcomes are inputs.
* numpy argsort is modelled as the stable ascending argsort (numpy uses
  insertion sort on small arrays; tie order on large arrays is left
  unspecified by numpy, all concrete evaluations here are small).
-/

namespace VectorStoreModel

/-- Floor square root on naturals by bounded search (kernel-reducible
on the small concrete values evaluated in this file). -/
def natSqrt (n : ℕ) : ℕ :=
  ((List.range (n + 1)).filter (fun k => k * k ≤ n)).getLastD 0

/-- Square root on rationals, exact whenever the numerator and denominator
are perfect squares; every concrete state evaluated in this file keeps the
squared norms perfect squares, so the modelled cosine values are exact. -/
def ratSqrt (q : ℚ) : ℚ :=
  (natSqrt q.num.toNat : ℚ) / (natSqrt q.den : ℚ)

/-- Dot product of two weight vectors; zipWith mirrors the elementwise
product over equal-length numpy vectors (the query path checks shapes
before this is ever applied to unequal lengths). -/
def dotp (u v : List ℚ) : ℚ :=
  (List.zipWith (fun a b => a * b) u v).sum

/-- Model of sklearn.metrics.pairwise.cosine_similarity on one row:
both vectors are normalised (a zero vector is left as zero, giving
similarity 0), then dotted. -/
def cosine_similarity (u v : List ℚ) : ℚ :=
  if dotp u u = 0 ∨ dotp v v = 0 then 0
  else dotp u v / (ratSqrt (dotp u u) * ratSqrt (dotp v v))

/-- Model of a fitted (or unfitted) TfidfVectorizer: only its transform
behaviour is observable in the store; none models a raised exception. -/
structure Vectorizer where
  transform : String → Option (List ℚ)

/-- One entry of self.document_data: a dict with keys id, content and
metadata, where metadata is the singleton dict with key source. -/
structure DocumentRecord where
  id : String
  content : String
  source : String
deriving DecidableEq

/-- The numpy matrix self.vectors, one row per document. -/
abbrev Matrix := List (List ℚ)

/-- In-memory state of a VectorStore instance: the triple of fields
self.vectorizer, self.document_data and self.vectors. -/
structure VectorStore where
  vectorizer : Vectorizer
  document_data : List DocumentRecord
  vectors : Option Matrix

/-- A fresh TfidfVectorizer(stop_words=english): transform on an
unfitted vectorizer raises NotFittedError, modelled as none. -/
def freshVectorizer : Vectorizer :=
  ⟨fun _ => none⟩

/-- The empty, untrained state created by __init__ when artifacts are
absent and by load_model on any load failure. -/
def freshStore : VectorStore :=
  ⟨freshVectorizer, [], none⟩

/-- Model of VectorStore.count: len(self.document_data); the hasattr
guard is always satisfied here since the field always exists. -/
def VectorStore.count (s : VectorStore) : ℕ :=
  s.document_data.length

/-- Number of rows of self.vectors (0 when the matrix is absent). -/
def VectorStore.rowCount (s : VectorStore) : ℕ :=
  match s.vectors with
  | some m => m.length
  | none => 0

/-- State of one persisted artifact file: missing, present but failing
to deserialize, or deserializing to a value. -/
inductive Blob (α : Type) where
  | missing
  | corrupt
  | good (val : α)

/-- Whether the artifact file exists on disk (os.path.exists). -/
def Blob.isPresent {α : Type} : Blob α → Bool
  | .missing => false
  | _ => true

/-- Result of deserializing the artifact (none models a raised
exception during pickle.load / json.load / np.load). -/
def Blob.loadContent {α : Type} : Blob α → Option α
  | .good a => some a
  | _ => none

/-- The three co-located artifact files of the persisted index. -/
structure Disk where
  vectorizerFile : Blob Vectorizer
  documentsFile : Blob (List DocumentRecord)
  vectorsFile : Blob Matrix

/-- All three artifacts exist and deserialize without error. -/
def Disk.allGood (d : Disk) : Bool :=
  match d.vectorizerFile, d.documentsFile, d.vectorsFile with
  | .good _, .good _, .good _ => true
  | _, _, _ => false

/-- Model of VectorStore.load_model: the three loads run inside one try
block, so a failure at any point discards partial assignments and resets
the store to the empty untrained state; no cross-artifact consistency
check is performed. -/
def load_model (d : Disk) : VectorStore :=
  match d.vectorizerFile.loadContent, d.documentsFile.loadContent,
      d.vectorsFile.loadContent with
  | some v, some docs, some m => ⟨v, docs, some m⟩
  | _, _, _ => freshStore

/-- Model of VectorStore.__init__: load_model runs only when all three
artifact files exist, otherwise a fresh empty model is created. -/
def VectorStore.init (d : Disk) : VectorStore :=
  if d.vectorizerFile.isPresent && d.documentsFile.isPresent
      && d.vectorsFile.isPresent then
    load_model d
  else
    freshStore

/-- Outcome of the write sequence in save_model: success, or a raised
exception at one of the three writes (caught by the except branch). -/
inductive WriteOutcome where
  | success
  | failVectorizer
  | failDocuments
  | failVectors

/-- Model of VectorStore.save_model: writes vectorizer, documents, and
(only when self.vectors is not None) the vector matrix, in that order;
any exception is caught and logged, so the function always returns and
never modifies the in-memory store. A failing write leaves its own file
in an unspecified partially-written state, modelled as corrupt, and
skips the remaining writes. -/
def save_model (s : VectorStore) (d : Disk) (w : WriteOutcome) :
    VectorStore × Disk :=
  match w with
  | .success =>
      (s, { vectorizerFile := .good s.vectorizer
            documentsFile := .good s.document_data
            vectorsFile :=
              match s.vectors with
              | some m => .good m
              | none => d.vectorsFile })
  | .failVectorizer =>
      (s, { d with vectorizerFile := .corrupt })
  | .failDocuments =>
      (s, { vectorizerFile := .good s.vectorizer
            documentsFile := .corrupt
            vectorsFile := d.vectorsFile })
  | .failVectors =>
      (s, { vectorizerFile := .good s.vectorizer
            documentsFile := .good s.document_data
            vectorsFile :=
              match s.vectors with
              | some _ => .corrupt
              | none => d.vectorsFile })

/-- One file returned by the glob over DOCS_DIR; content is none when
reading the file raises (the loop catches, logs and continues). -/
structure ChunkFile where
  path : String
  content : Option String
deriving DecidableEq

/-- Model of os.path.basename for posix paths. -/
def basename (p : String) : String :=
  (p.splitOn "/").getLastD p

/-- Model of the id derivation: basename with every occurrence of the
substring .txt removed (Python str.replace replaces all occurrences). -/
def fileId (p : String) : String :=
  (basename p).replace ".txt" ""

/-- Model of the scanning loop of load_documents: returns the parallel
lists documents (trimmed contents) and document_data (records), keeping
exactly the readable files whose stripped content is non-empty. -/
def scanChunks : List ChunkFile → List String × List DocumentRecord
  | [] => ([], [])
  | f :: rest =>
    let tail := scanChunks rest
    match f.content with
    | none => tail
    | some raw =>
      if raw.trim ≠ "" then
        (raw.trim :: tail.1, ⟨fileId f.path, raw.trim, f.path⟩ :: tail.2)
      else tail

/-- Environment of one load_documents call: the glob result, the
behaviour of sklearn fit_transform (none models the ValueError raised on
an empty vocabulary, which the code does not catch; some gives the
refitted vectorizer and the document matrix), and the write outcome of
the save_model call. -/
structure LoadEnv where
  chunk_files : List ChunkFile
  fit_transform : List String → Option (Vectorizer × Matrix)
  writeOutcome : WriteOutcome

/-- Observable outcome of one load_documents call: final in-memory
store, final disk, whether an exception propagated out of the call,
whether fit_transform was invoked, whether save_model ran, whether the
no-documents warning was logged, and whether the corpus was scanned. -/
structure LoadResult where
  store : VectorStore
  disk : Disk
  raised : Bool
  fitted : Bool
  saved : Bool
  warnedNoDocs : Bool
  scanned : Bool

/-- Model of VectorStore.load_documents. Control flow of the source:
early return when not force_reload and count() > 0; on force_reload the
records and vectors are cleared (the vectorizer is not); the corpus is
scanned; if any usable document exists, fit_transform refits the
vectorizer and produces the matrix (an exception here propagates with
the store still in its cleared state), the records are installed and
save_model runs; otherwise only a warning is logged. -/
def load_documents (s : VectorStore) (d : Disk) (env : LoadEnv)
    (force_reload : Bool) : LoadResult :=
  if ¬ force_reload = true ∧ 0 < s.count then
    ⟨s, d, false, false, false, false, false⟩
  else
    let s1 : VectorStore :=
      if force_reload then { s with document_data := [], vectors := none }
      else s
    let scanned := scanChunks env.chunk_files
    if scanned.1 ≠ [] then
      match env.fit_transform scanned.1 with
      | none => ⟨s1, d, true, true, false, false, true⟩
      | some (v, m) =>
        let s2 : VectorStore := ⟨v, scanned.2, some m⟩
        let saved := save_model s2 d env.writeOutcome
        ⟨saved.1, saved.2, false, true, true, false, true⟩
    else
      ⟨s1, d, false, false, false, true, true⟩

/-- Similarity score of document i, read with numpy-style indexing
(the default 0 is never reached on the in-bounds indices argsort
produces). -/
def simAt (sims : List ℚ) (i : ℕ) : ℚ :=
  sims.getD i 0

/-- Key order of the stable ascending argsort on indices: compare
similarity values first, break ties by index. This is the order realised
by numpy insertion sort (used on small arrays). -/
def lexLe (sims : List ℚ) (i j : ℕ) : Prop :=
  simAt sims i < simAt sims j ∨ (simAt sims i = simAt sims j ∧ i ≤ j)

instance lexLeDecidable (sims : List ℚ) : DecidableRel (lexLe sims) :=
  fun i j =>
    inferInstanceAs (Decidable (simAt sims i < simAt sims j ∨
      (simAt sims i = simAt sims j ∧ i ≤ j)))

instance lexLeTotal (sims : List ℚ) : IsTotal ℕ (lexLe sims) where
  total i j := by
    rcases lt_trichotomy (simAt sims i) (simAt sims j) with h | h | h
    · exact Or.inl (Or.inl h)
    · rcases Nat.le_total i j with hij | hij
      · exact Or.inl (Or.inr ⟨h, hij⟩)
      · exact Or.inr (Or.inr ⟨h.symm, hij⟩)
    · exact Or.inr (Or.inl h)

instance lexLeTrans (sims : List ℚ) : IsTrans ℕ (lexLe sims) where
  trans i j k hij hjk := by
    rcases hij with h1 | ⟨h1, h1'⟩
    · rcases hjk with h2 | ⟨h2, _⟩
      · exact Or.inl (h1.trans h2)
      · exact Or.inl (h2 ▸ h1)
    · rcases hjk with h2 | ⟨h2, h2'⟩
      · exact Or.inl (h1 ▸ h2)
      · exact Or.inr ⟨h1.trans h2, h1'.trans h2'⟩

/-- Model of numpy.argsort on the similarity vector: the indices
0 .. len-1 sorted ascending by similarity, ties by index. -/
def argsort (sims : List ℚ) : List ℕ :=
  List.insertionSort (lexLe sims) (List.range sims.length)

/-- Model of the Python slice arr[-n:]: the last n elements, and the
whole list when n = 0 (since arr[-0:] is arr[0:]) or n exceeds the
length. -/
def takeLast {α : Type} (n : ℕ) (xs : List α) : List α :=
  if n = 0 then xs else xs.drop (xs.length - n)

/-- Model of line 153: similarities.argsort()[-n_results:][::-1]. -/
def top_indices (sims : List ℚ) (n_results : ℕ) : List ℕ :=
  (takeLast n_results (argsort sims)).reverse

/-- One element of the result list built by query. -/
structure QueryResult where
  content : String
  source : String
  id : String
  similarity : ℚ
deriving DecidableEq

/-- The dict appended for one retained index. -/
def mkResult (doc : DocumentRecord) (sim : ℚ) : QueryResult :=
  ⟨doc.content, doc.source, doc.id, sim⟩

/-- Model of the result loop of query (lines 156-165): for each index,
keep it only when its similarity is strictly positive; indexing
similarities or document_data out of bounds raises IndexError, which the
surrounding try turns into an empty overall result (modelled none). -/
def buildResults (sims : List ℚ) (docs : List DocumentRecord) :
    List ℕ → Option (List QueryResult)
  | [] => some []
  | i :: rest =>
    if i < sims.length then
      if 0 < simAt sims i then
        match docs.get? i, buildResults sims docs rest with
        | some doc, some rs => some (mkResult doc (simAt sims i) :: rs)
        | _, _ => none
      else buildResults sims docs rest
    else none

/-- Model of VectorStore.query: empty store short-circuits to []; any
exception inside the try (failing transform, shape mismatch in
cosine_similarity, IndexError) yields []; otherwise the top indices by
similarity are selected, filtered to strictly positive similarity, and
returned in order. -/
def VectorStore.query (s : VectorStore) (query_text : String)
    (n_results : ℕ) : List QueryResult :=
  match s.document_data, s.vectors with
  | [], _ => []
  | _, none => []
  | _ :: _, some m =>
    match s.vectorizer.transform query_text with
    | none => []
    | some qv =>
      if m.any (fun row => row.length ≠ qv.length) then []
      else
        let sims := m.map (fun row => cosine_similarity qv row)
        match buildResults sims s.document_data (top_indices sims n_results) with
        | none => []
        | some rs => rs

/-- A fitted vectorizer whose transform of any text is the unit vector
on a one-term vocabulary (a concrete loadable pickle behaviour). -/
def vecOne : Vectorizer :=
  ⟨fun _ => some [1]⟩

/-- A fitted vectorizer mapping every text to the zero vector: the
behaviour of transform on text entirely outside the vocabulary. -/
def vecZero : Vectorizer :=
  ⟨fun _ => some [0]⟩

/-- First sample record. -/
def docA : DocumentRecord :=
  ⟨"me_chunk_1", "alpha", "docs/clean/me_chunk_1.txt"⟩

/-- Second sample record. -/
def docB : DocumentRecord :=
  ⟨"me_chunk_2", "alpha", "docs/clean/me_chunk_2.txt"⟩

/-- A store holding two documents with identical rows, so both have the
same similarity to every query (e.g. two chunk files with identical
content). -/
def tieState : VectorStore :=
  ⟨vecOne, [docA, docB], some [[1], [1]]⟩

/-- A store queried with text entirely outside the vocabulary. -/
def oovState : VectorStore :=
  ⟨vecZero, [docA], some [[1]]⟩

/-- A store with one document. -/
def oneDocStore : VectorStore :=
  ⟨vecOne, [docA], some [[1]]⟩

/-- Disk with no artifact files. -/
def emptyDisk : Disk :=
  ⟨.missing, .missing, .missing⟩

/-- Disk whose three artifact files all exist but whose documents file
fails to deserialize. -/
def corruptDisk : Disk :=
  ⟨.good vecOne, .corrupt, .good [[1]]⟩

/-- Disk whose artifacts are individually valid but mutually
inconsistent: one document record, two matrix rows. -/
def mismatchedDisk : Disk :=
  ⟨.good vecOne, .good [docA], .good [[1], [1]]⟩

/-- Environment whose corpus directory matches no chunk files. -/
def envNoFiles : LoadEnv :=
  ⟨[], fun _ => none, .success⟩

/-- Disk holding a previously persisted one-document index. -/
def staleDisk : Disk :=
  ⟨.good vecOne, .good [docA], .good [[1]]⟩

/-! Helper lemmas (shared between the claim theorems). -/

theorem natSqrt_one : natSqrt 1 = 1 := by decide

theorem ratSqrt_one : ratSqrt 1 = 1 := by
  rw [ratSqrt]
  norm_num [natSqrt_one]

theorem cosine_one_one : cosine_similarity [1] [1] = 1 := by
  norm_num [cosine_similarity, dotp, ratSqrt_one]

theorem cosine_zero_left {u v : List ℚ} (h : dotp u u = 0) :
    cosine_similarity u v = 0 :=
  if_pos (Or.inl h)

/-- Evaluation of the tie query used by several concrete statements. -/
theorem tieEval : VectorStore.query tieState "x" 5 =
    [mkResult docB 1, mkResult docA 1] := by
  norm_num [VectorStore.query, tieState, vecOne, cosine_one_one, top_indices,
    takeLast, argsort, List.insertionSort, List.orderedInsert, lexLe, simAt,
    List.range_succ, buildResults]

theorem takeLast_sublist {α : Type} (n : ℕ) (xs : List α) :
    List.Sublist (takeLast n xs) xs := by
  unfold takeLast
  split
  · exact List.Sublist.refl xs
  · exact List.drop_sublist _ _

theorem argsort_sorted (sims : List ℚ) :
    List.Sorted (lexLe sims) (argsort sims) :=
  List.sorted_insertionSort (lexLe sims) (List.range sims.length)

theorem mem_argsort {sims : List ℚ} {i : ℕ} (h : i ∈ argsort sims) :
    i < sims.length := by
  unfold argsort at h
  have := (List.perm_insertionSort (lexLe sims)
    (List.range sims.length)).mem_iff.mp h
  simpa using this

theorem mem_top_indices {sims : List ℚ} {n i : ℕ}
    (h : i ∈ top_indices sims n) : i < sims.length := by
  unfold top_indices at h
  rw [List.mem_reverse] at h
  exact mem_argsort ((takeLast_sublist n (argsort sims)).subset h)

theorem top_indices_pairwise (sims : List ℚ) (n : ℕ) :
    List.Pairwise (fun i j => lexLe sims j i) (top_indices sims n) := by
  unfold top_indices
  rw [List.pairwise_reverse]
  exact List.Pairwise.sublist (takeLast_sublist n (argsort sims))
    (argsort_sorted sims)

theorem top_indices_sims_descending (sims : List ℚ) (n : ℕ) :
    List.Pairwise (fun i j => simAt sims j ≤ simAt sims i)
      (top_indices sims n) := by
  refine (top_indices_pairwise sims n).imp ?_
  intro i j hij
  rcases hij with h | ⟨h, _⟩
  · exact h.le
  · exact h.le

theorem buildResults_mem (sims : List ℚ) (docs : List DocumentRecord) :
    ∀ idxs rs, buildResults sims docs idxs = some rs →
      ∀ r ∈ rs, 0 < r.similarity ∧
        ∃ i, i ∈ idxs ∧ r.similarity = simAt sims i := by
  intro idxs
  induction idxs with
  | nil =>
    intro rs h r hr
    simp only [buildResults, Option.some.injEq] at h
    subst h
    simp at hr
  | cons i rest ih =>
    intro rs h r hr
    rw [buildResults] at h
    split at h
    · split at h
      · split at h
        · rename_i doc rs' hdoc hrec
          have hrs : mkResult doc (simAt sims i) :: rs' = rs :=
            Option.some.inj h
          subst hrs
          rcases List.mem_cons.mp hr with hr' | hr'
          · subst hr'
            refine ⟨by assumption, i, List.mem_cons_self .., rfl⟩
          · obtain ⟨hpos, j, hj, hsim⟩ := ih rs' hrec r hr'
            exact ⟨hpos, j, List.mem_cons_of_mem _ hj, hsim⟩
        · exact absurd h (by simp)
      · obtain ⟨hpos, j, hj, hsim⟩ := ih rs h r hr
        exact ⟨hpos, j, List.mem_cons_of_mem _ hj, hsim⟩
    · exact absurd h (by simp)

theorem buildResults_sorted (sims : List ℚ) (docs : List DocumentRecord) :
    ∀ idxs rs,
      List.Pairwise (fun i j => simAt sims j ≤ simAt sims i) idxs →
      buildResults sims docs idxs = some rs →
      List.Pairwise (fun a b => b.similarity ≤ a.similarity) rs := by
  intro idxs
  induction idxs with
  | nil =>
    intro rs _ h
    simp only [buildResults, Option.some.injEq] at h
    subst h
    exact List.Pairwise.nil
  | cons i rest ih =>
    intro rs hp h
    obtain ⟨hhead, htail⟩ := List.pairwise_cons.mp hp
    rw [buildResults] at h
    split at h
    · split at h
      · split at h
        · rename_i doc rs' hdoc hrec
          have hrs : mkResult doc (simAt sims i) :: rs' = rs :=
            Option.some.inj h
          subst hrs
          refine List.pairwise_cons.mpr ⟨?_, ih rs' htail hrec⟩
          intro b hb
          obtain ⟨_, j, hj, hsim⟩ := buildResults_mem sims docs rest rs' hrec b hb
          rw [hsim]
          exact hhead j hj
        · exact absurd h (by simp)
      · exact ih rs htail h
    · exact absurd h (by simp)

theorem buildResults_all_nonpos (sims : List ℚ) (docs : List DocumentRecord) :
    ∀ idxs, (∀ i ∈ idxs, i < sims.length) → (∀ i, simAt sims i ≤ 0) →
      buildResults sims docs idxs = some [] := by
  intro idxs
  induction idxs with
  | nil => intro _ _; rfl
  | cons i rest ih =>
    intro hb hz
    rw [buildResults]
    rw [if_pos (hb i (List.mem_cons_self ..)), if_neg (by exact (hz i).not_lt)]
    exact ih (fun j hj => hb j (List.mem_cons_of_mem _ hj)) hz

theorem simAt_nonpos_of_all_zero {sims : List ℚ}
    (h : ∀ x ∈ sims, x = 0) (i : ℕ) : simAt sims i ≤ 0 := by
  unfold simAt
  rw [List.getD_eq_getElem?_getD]
  cases hx : sims[i]? with
  | none => simp
  | some x =>
    have hmem : x ∈ sims := List.getElem?_mem hx
    simp [h x hmem]

/-- Helper: the mapped similarity sequence of any query result list is
non-increasing. -/
theorem query_map_similarity_chain (s : VectorStore) (q : String)
    (n : ℕ) :
    List.Chain' (fun a b => b ≤ a)
      ((VectorStore.query s q n).map (fun r => r.similarity)) := by
  obtain ⟨vz, dd, vv⟩ := s
  cases dd with
  | nil => simp [VectorStore.query]
  | cons dhead dtail =>
    cases vv with
    | none => simp [VectorStore.query]
    | some m =>
      simp only [VectorStore.query]
      split
      · simp
      · split
        · simp
        · split
          · simp
          · rename_i rs heq
            have hsorted := buildResults_sorted _ _ _ rs
              (top_indices_sims_descending _ n) heq
            exact (List.pairwise_map.mpr hsorted).chain'

/-- Claim C4: every returned result has strictly positive similarity, for
every store state, query text and requested count (so the positive filter
may yield fewer than n_results results); moreover a query whose transform
is the zero vector (text entirely outside the vocabulary) returns no
results at all. -/
theorem query_positive_only (s : VectorStore) (q : String) (n : ℕ) :
    (∀ r ∈ VectorStore.query s q n, 0 < r.similarity) ∧
    (∀ qv, s.vectorizer.transform q = some qv → dotp qv qv = 0 →
      VectorStore.query s q n = []) := by
  obtain ⟨vz, dd, vv⟩ := s
  constructor
  · intro r hr
    cases dd with
    | nil => simp [VectorStore.query] at hr
    | cons dhead dtail =>
      cases vv with
      | none => simp [VectorStore.query] at hr
      | some m =>
        simp only [VectorStore.query] at hr
        split at hr
        · simp at hr
        · split at hr
          · simp at hr
          · split at hr
            · simp at hr
            · rename_i rs heq
              exact (buildResults_mem _ _ _ rs heq r hr).1
  · intro qv htr hzero
    cases dd with
    | nil => simp [VectorStore.query]
    | cons dhead dtail =>
      cases vv with
      | none => simp [VectorStore.query]
      | some m =>
        simp only [VectorStore.query]
        simp only at htr
        split
        · rfl
        · rename_i x qv2 heq2
          rw [htr] at heq2
          injection heq2 with h2
          subst h2
          have hall : ∀ x ∈ m.map (fun row => cosine_similarity qv row),
              x = 0 := by
            intro x hx
            obtain ⟨row, _, hrow⟩ := List.mem_map.mp hx
            rw [← hrow]
            exact cosine_zero_left hzero
          split
          · rfl
          · rw [buildResults_all_nonpos _ (dhead :: dtail) _
              (fun i hi => mem_top_indices hi)
              (simAt_nonpos_of_all_zero hall)]

/-- Claim C7: for every query, the similarities of consecutive returned
ranks are non-increasing: similarity of rank i is at least the
similarity of rank i+1, for every store state, query text and requested
result count. -/
theorem query_similarities_nonincreasing (s : VectorStore) (q : String)
    (n : ℕ) :
    List.Chain' (fun a b => b ≤ a)
      ((VectorStore.query s q n).map (fun r => r.similarity)) :=
  query_map_similarity_chain s q n

/-- Claim C3 (amended): query results are ordered by non-increasing
similarity, but equal-similarity results appear in reverse document
order, not original order: the selected index sequence is pairwise such
that an earlier selected index has strictly larger similarity, or equal
similarity and a greater-or-equal document index (the ascending stable
argsort is reversed wholesale, flipping tie order). -/
theorem query_descending_ties_reversed (s : VectorStore) (q : String)
    (n : ℕ) (sims : List ℚ) :
    List.Chain' (fun a b => b ≤ a)
      ((VectorStore.query s q n).map (fun r => r.similarity)) ∧
    List.Pairwise (fun i j => lexLe sims j i) (top_indices sims n) :=
  ⟨query_map_similarity_chain s q n, top_indices_pairwise sims n⟩

/-- Claim C3 counterexample: in a loaded store with two documents of
equal similarity to the query (two identical rows), the results come
back in reverse document order: document_data order is chunk 1 then
chunk 2, but the returned ids are chunk 2 then chunk 1, with equal
similarities; this refutes stable tie-breaking by original document
order. -/
theorem query_tie_order_counterexample :
    (VectorStore.query tieState "x" 5).map (fun r => r.id) =
      ["me_chunk_2", "me_chunk_1"] ∧
    (VectorStore.query tieState "x" 5).map (fun r => r.similarity) =
      [1, 1] ∧
    tieState.document_data.map (fun r => r.id) =
      ["me_chunk_1", "me_chunk_2"] := by
  rw [tieEval]
  exact ⟨rfl, rfl, rfl⟩

/-- Witness for C4 at concrete inputs: a result actually returned by a
query has strictly positive similarity, and a concrete query transforming
to the zero vector returns no results. -/
theorem query_positive_only_witness :
    (mkResult docB 1 ∈ VectorStore.query tieState "x" 5 ∧
      0 < (mkResult docB 1).similarity) ∧
    (oovState.vectorizer.transform "zz" = some [0] ∧ dotp [0] [0] = 0 ∧
      VectorStore.query oovState "zz" 3 = []) := by
  have hmem : mkResult docB 1 ∈ VectorStore.query tieState "x" 5 := by
    rw [tieEval]
    simp
  refine ⟨⟨hmem, (query_positive_only tieState "x" 5).1 _ hmem⟩,
    rfl, by simp [dotp], ?_⟩
  exact (query_positive_only oovState "zz" 3).2 [0] rfl (by simp [dotp])

/-- Claim C5: startup load succeeds only when all three artifacts exist
and deserialize; on any failure (missing or corrupt artifact) the store
falls back to the empty untrained state (init and load_model are total
functions, so no exception propagates), and querying that empty state
with any text returns an empty list, not an error. -/
theorem init_falls_back_to_empty (d : Disk) (h : d.allGood = false) :
    VectorStore.init d = freshStore ∧
    (∀ q n, VectorStore.query freshStore q n = []) := by
  constructor
  · obtain ⟨dv, dd, dm⟩ := d
    cases dv <;> cases dd <;> cases dm <;>
      simp_all [VectorStore.init, load_model, Disk.allGood, Blob.isPresent,
        Blob.loadContent]
  · intro q n
    rfl

/-- Witness for C5: a concrete artifact set whose documents file exists
but fails to deserialize loads as the empty store, and querying it
returns no results. -/
theorem init_falls_back_to_empty_witness :
    Disk.allGood corruptDisk = false ∧
    VectorStore.init corruptDisk = freshStore ∧
    VectorStore.query freshStore "anything" 5 = [] :=
  ⟨rfl, (init_falls_back_to_empty corruptDisk rfl).1,
    (init_falls_back_to_empty corruptDisk rfl).2 "anything" 5⟩

/-- Claim C2 counterexample: an artifact set whose parts are individually
valid but mutually inconsistent (one document record, a two-row matrix)
is loaded as-is by load_model: the resulting state has one record and two
matrix rows and is not treated as an absent/empty index, refuting the
claim that every loaded state has len(matrix) = len(document_records) or
is detected/treated as absent. -/
theorem load_model_mismatch_counterexample :
    (load_model mismatchedDisk).count = 1 ∧
    (load_model mismatchedDisk).rowCount = 2 ∧
    (load_model mismatchedDisk).document_data ≠ [] := by
  refine ⟨rfl, rfl, ?_⟩
  decide

/-- Claim C2 (amended): the load path falls back to the empty state only
when an artifact is missing or fails to deserialize; it performs no
cross-artifact consistency check, so a mismatched artifact set loads
unchecked. For artifact sets written together by a successful save of a
consistent store, the loaded state does satisfy the invariant: the
matrix has exactly one row per document record, in the same order. -/
theorem save_then_load_consistent (s : VectorStore) (d : Disk)
    (m : Matrix) (h1 : s.vectors = some m)
    (h2 : m.length = s.document_data.length) :
    (load_model (save_model s d WriteOutcome.success).2).count =
      (load_model (save_model s d WriteOutcome.success).2).rowCount ∧
    (load_model (save_model s d WriteOutcome.success).2).document_data =
      s.document_data ∧
    (load_model (save_model s d WriteOutcome.success).2).vectors = some m := by
  simp [save_model, load_model, h1, Blob.loadContent, VectorStore.count,
    VectorStore.rowCount, h2]

/-- Witness for C2 (amended) at a concrete consistent store. -/
theorem save_then_load_consistent_witness :
    (load_model (save_model oneDocStore emptyDisk WriteOutcome.success).2).count =
      (load_model (save_model oneDocStore emptyDisk WriteOutcome.success).2).rowCount ∧
    (load_model (save_model oneDocStore emptyDisk WriteOutcome.success).2).document_data =
      oneDocStore.document_data ∧
    (load_model (save_model oneDocStore emptyDisk WriteOutcome.success).2).vectors =
      some [[1]] :=
  save_then_load_consistent oneDocStore emptyDisk [[1]] rfl rfl

/-- Claim C6: for a store holding a vector matrix (as at the single call
site, where save_model runs right after fit), a successful save writes
all three artifacts; and for every write outcome — including every
failure point — save_model returns normally (it is a total function, the
exception is caught and logged) and leaves the in-memory store
unchanged, so the index remains usable after a failed save. -/
theorem save_writes_all_and_preserves_store (s : VectorStore) (d : Disk)
    (m : Matrix) (h : s.vectors = some m) :
    (save_model s d WriteOutcome.success).2 =
      ⟨Blob.good s.vectorizer, Blob.good s.document_data, Blob.good m⟩ ∧
    (∀ w, (save_model s d w).1 = s) := by
  constructor
  · simp [save_model, h]
  · intro w
    cases w <;> rfl

/-- Witness for C6 at a concrete trained store. -/
theorem save_writes_all_and_preserves_store_witness :
    (save_model oneDocStore emptyDisk WriteOutcome.success).2 =
      ⟨Blob.good oneDocStore.vectorizer, Blob.good oneDocStore.document_data,
        Blob.good [[1]]⟩ ∧
    (∀ w, (save_model oneDocStore emptyDisk w).1 = oneDocStore) :=
  save_writes_all_and_preserves_store oneDocStore emptyDisk [[1]] rfl

/-- Claim C1 counterexample: a corpus scan yielding zero usable documents
does not make load_documents fail with any error: the call returns
normally with no exception raised, merely logging the no-documents
warning and leaving the store empty and untrained. -/
theorem empty_corpus_no_error_counterexample :
    (load_documents freshStore emptyDisk envNoFiles false).raised = false ∧
    (load_documents freshStore emptyDisk envNoFiles false).warnedNoDocs = true ∧
    (load_documents freshStore emptyDisk envNoFiles false).store.count = 0 := by
  exact ⟨rfl, rfl, rfl⟩

/-- Claim C1 (amended): when the build actually proceeds (forced, or no
documents yet) and the scan yields zero usable documents, load_documents
raises no error and produces no EmptyCorpus failure: it skips fitting and
saving, logs the no-documents warning, and leaves the in-memory index
with zero documents and the disk untouched, so no trained model results
but the failure is only a log warning. -/
theorem empty_scan_warns_no_error (s : VectorStore) (d : Disk)
    (env : LoadEnv) (force_reload : Bool)
    (hrun : force_reload = true ∨ s.count = 0)
    (hempty : (scanChunks env.chunk_files).1 = []) :
    (load_documents s d env force_reload).raised = false ∧
    (load_documents s d env force_reload).fitted = false ∧
    (load_documents s d env force_reload).saved = false ∧
    (load_documents s d env force_reload).warnedNoDocs = true ∧
    (load_documents s d env force_reload).store.count = 0 ∧
    (load_documents s d env force_reload).disk = d := by
  rcases hrun with h | h
  · subst h
    simp [load_documents, hempty, VectorStore.count]
  · rcases Bool.eq_false_or_eq_true force_reload with hf | hf
    · subst hf
      simp [load_documents, hempty, VectorStore.count]
    · subst hf
      have hlen : s.document_data.length = 0 := h
      have hnil : s.document_data = [] := List.length_eq_zero.mp hlen
      simp [load_documents, hempty, VectorStore.count, hnil]

/-- Witness for C1 (amended) at a concrete empty corpus. -/
theorem empty_scan_warns_no_error_witness :
    ((false : Bool) = true ∨ freshStore.count = 0) ∧
    (scanChunks envNoFiles.chunk_files).1 = [] ∧
    (load_documents freshStore emptyDisk envNoFiles false).raised = false ∧
    (load_documents freshStore emptyDisk envNoFiles false).warnedNoDocs = true :=
  ⟨Or.inr rfl, rfl,
    (empty_scan_warns_no_error freshStore emptyDisk envNoFiles false
      (Or.inr rfl) rfl).1,
    (empty_scan_warns_no_error freshStore emptyDisk envNoFiles false
      (Or.inr rfl) rfl).2.2.2.1⟩

/-- Claim C8: reload with force=false on an already-populated index is a
complete no-op: the store and disk are returned unchanged, the corpus is
not scanned, nothing is fitted, nothing is saved. -/
theorem reload_noop (s : VectorStore) (d : Disk) (env : LoadEnv)
    (h : 0 < s.count) :
    load_documents s d env false = ⟨s, d, false, false, false, false, false⟩ := by
  unfold load_documents
  rw [if_pos ⟨by simp, h⟩]

/-- Witness for C8 at a concrete populated store. -/
theorem reload_noop_witness :
    0 < oneDocStore.count ∧
    load_documents oneDocStore emptyDisk envNoFiles false =
      ⟨oneDocStore, emptyDisk, false, false, false, false, false⟩ :=
  ⟨by decide, reload_noop oneDocStore emptyDisk envNoFiles (by decide)⟩

/-- Claim C9: the corpus scan creates a DocumentRecord exactly for the
readable files whose whitespace-trimmed content is non-empty (with the
id derived from the file name and the source path recorded); unreadable
files are skipped and scanning continues with the remaining files, and
the fitted documents list is exactly the contents of those records. -/
theorem scan_creates_records_exactly (files : List ChunkFile) :
    (scanChunks files).2 = files.filterMap (fun f =>
      match f.content with
      | none => none
      | some raw =>
        if raw.trim ≠ "" then
          some ⟨fileId f.path, raw.trim, f.path⟩
        else none) ∧
    (scanChunks files).1 = ((scanChunks files).2).map (fun r => r.content) := by
  induction files with
  | nil => exact ⟨rfl, rfl⟩
  | cons f rest ih =>
    obtain ⟨ih1, ih2⟩ := ih
    cases hc : f.content with
    | none => simp [scanChunks, List.filterMap_cons, hc, ih1, ih2]
    | some raw =>
      by_cases hr : raw.trim = ""
      · simp [scanChunks, List.filterMap_cons, hc, hr, ih1, ih2]
      · simp [scanChunks, List.filterMap_cons, hc, hr, ih1, ih2]

/-- Claim C10: a forced reload that finds zero usable documents clears
the in-memory index (zero documents, every query returns an empty list)
but writes nothing to disk: the persisted artifacts are untouched, so a
freshly constructed store will load the old, stale index from them. -/
theorem forced_reload_empty_keeps_disk (s : VectorStore) (d : Disk)
    (env : LoadEnv) (hempty : (scanChunks env.chunk_files).1 = []) :
    (load_documents s d env true).store.count = 0 ∧
    (∀ q n, VectorStore.query (load_documents s d env true).store q n = []) ∧
    (load_documents s d env true).disk = d ∧
    (∀ v docs m, d = ⟨Blob.good v, Blob.good docs, Blob.good m⟩ →
      (VectorStore.init (load_documents s d env true).disk).document_data
        = docs) := by
  have hld : load_documents s d env true =
      ⟨⟨s.vectorizer, [], none⟩, d, false, false, false, true, true⟩ := by
    unfold load_documents
    simp [hempty]
  rw [hld]
  refine ⟨rfl, fun q n => rfl, rfl, ?_⟩
  intro v docs m hd
  subst hd
  rfl

/-- Witness for C10: forced reload over an empty corpus with a stale
one-document artifact set on disk clears memory, keeps the disk, and a
fresh init still loads the stale record. -/
theorem forced_reload_empty_keeps_disk_witness :
    (scanChunks envNoFiles.chunk_files).1 = [] ∧
    (load_documents oneDocStore staleDisk envNoFiles true).store.count = 0 ∧
    (load_documents oneDocStore staleDisk envNoFiles true).disk = staleDisk ∧
    (VectorStore.init
      (load_documents oneDocStore staleDisk envNoFiles true).disk).document_data
      = [docA] :=
  ⟨rfl,
    (forced_reload_empty_keeps_disk oneDocStore staleDisk envNoFiles rfl).1,
    (forced_reload_empty_keeps_disk oneDocStore staleDisk envNoFiles rfl).2.2.1,
    (forced_reload_empty_keeps_disk oneDocStore staleDisk envNoFiles rfl).2.2.2
      vecOne [docA] [[1]] rfl⟩

end VectorStoreModel
